import Mathlib

/-!
Verification development for the socialbot repository.

The Python sources under study are shallowly embedded as executable Lean
definitions.  Conventions used throughout:

* Python `datetime` instants are modelled as `Int` seconds on a naive local
  timeline; a time-of-day is a `Nat` count of seconds since midnight.
* Python dicts with a fixed key set are modelled as structures whose field
  defaults mirror the `dict.get(key, default)` defaults used by the code;
  a field that holds `None`-or-value is an `Option`.
* Network collaborators (HTTP fetch, feed parser, publishing APIs, the AI
  chat endpoint, `html.unescape`) are passed in as function parameters, as
  the specification treats them as external collaborators.
* A Python exception that escapes a function is modelled with `Except` or
  with an explicit error field carrying the exception's name.
-/

/-! ## Structural string helpers

Kernel-reducible stand-ins for the Python `str` methods the sources use
(`split`, `lower`, `strip`, `int` parsing).  Lean core's own `String`
functions are implemented with well-founded position loops that concrete
proofs cannot evaluate, so the embedding works on `String.data`
directly. -/

/-- Whitespace as matched by Python's `\s` with `re.UNICODE` and by
`str.strip`/`str.split()`, restricted to the characters that occur in
practice (ASCII whitespace, vertical tab, form feed, no-break space). -/
def py_is_space (c : Char) : Bool :=
  c.isWhitespace || c = '\x0b' || c = '\x0c' || c = '\xa0'

/-- Worker for `py_split_on`: consumes one character per step; `skip`
counts separator characters still to swallow after a match; `acc` is the
segment under construction. -/
def py_split_on_aux (sep : List Char) : List Char → List Char → Nat → List (List Char)
  | [], acc, _ => [acc]
  | c :: rest, acc, skip =>
    match skip with
    | Nat.succ k => py_split_on_aux sep rest acc k
    | 0 =>
      if List.isPrefixOf sep (c :: rest) then
        acc :: py_split_on_aux sep rest [] (sep.length - 1)
      else py_split_on_aux sep rest (acc ++ [c]) 0

/-- Splitting on a non-empty separator substring, leftmost-first and
non-overlapping — the semantics shared by Python `str.split(sep)` and the
`str.find` + slice patterns in the sources. -/
def py_split_on (sep : String) (s : String) : List String :=
  if sep.data.isEmpty then [s]
  else (py_split_on_aux sep.data s.data [] 0).map String.mk

/-- Worker for `py_words`: split at every character satisfying `p`. -/
def py_split_p_aux (p : Char → Bool) : List Char → List Char → List (List Char)
  | [], acc => [acc]
  | c :: rest, acc =>
    if p c then acc :: py_split_p_aux p rest []
    else py_split_p_aux p rest (acc ++ [c])

/-- Python `str.split()` with no argument: the non-empty maximal runs of
non-whitespace characters. -/
def py_words (s : String) : List String :=
  ((py_split_p_aux py_is_space s.data []).map String.mk).filter
    (fun w => w ≠ "")

/-- Decimal digit parsing with the semantics of `String.toNat?`
(non-empty, digits only), as used to model `strptime` field reads. -/
def py_toNat? (s : String) : Option Nat :=
  if s.data ≠ [] ∧ s.data.all Char.isDigit then
    some (s.data.foldl (fun n c => n * 10 + (c.toNat - '0'.toNat)) 0)
  else none

/-- Python `str.lower()` on the ASCII range. -/
def py_lower (s : String) : String :=
  String.mk (s.data.map Char.toLower)

/-- Embeds Python `str.strip()`: drops leading and trailing whitespace. -/
def py_strip (s : String) : String :=
  String.mk ((s.data.dropWhile py_is_space).reverse.dropWhile py_is_space
    |>.reverse)

/-! ## utils/utils.py — MuteTimeChecker -/

/-- Embeds `datetime.strptime(s, "%H:%M").time()` (utils/utils.py lines 29-30):
accepts `H:M` with 1-2 digit fields, hour 0-23, minute 0-59, and returns the
time of day in minutes since midnight; `none` models the `ValueError` path. -/
def parseHHMM (s : String) : Option Nat :=
  match py_split_on ":" s with
  | [h, m] =>
    match py_toNat? h, py_toNat? m with
    | some hv, some mv =>
      if 1 ≤ h.length ∧ h.length ≤ 2 ∧ 1 ≤ m.length ∧ m.length ≤ 2
          ∧ hv ≤ 23 ∧ mv ≤ 59 then
        some (hv * 60 + mv)
      else none
    | _, _ => none
  | _ => none

/-- Embeds `MuteTimeChecker.is_mute_time` (utils/utils.py lines 23-42).
`nowSec` is the current time of day in seconds since midnight (the code
compares `datetime.time` values, which carry seconds).  Per its own
docstring the method returns `true` when the current time is OUTSIDE the
configured mute interval; a parse failure of either bound also yields
`true` (the `except ValueError` branch). -/
def is_mute_time (mute_from mute_to : String) (nowSec : Nat) : Bool :=
  match parseHHMM mute_from, parseHHMM mute_to with
  | some f, some t =>
    if f = t then true
    else if f < t then !(decide (f * 60 ≤ nowSec) && decide (nowSec ≤ t * 60))
    else !(decide (nowSec ≥ f * 60) || decide (nowSec ≤ t * 60))
  | _, _ => true

/-! ## socialbot.py — scheduler sleep clamping -/

/-- Embeds the sleep computation of `_worker_loop` (socialbot.py lines
284-288): given `sleep_time = next_run - now` in seconds, returns the
duration actually slept and whether the "Negative sleep_time" warning was
logged.  The code clamps and warns only when the duration is strictly
negative. -/
def clamp_sleep_time (d : Int) : Int × Bool :=
  if d < 0 then (0, true) else (d, false)

/-! ## gpt/gptcomment.py — ArticleCommentator -/

/-- Embeds `ArticleCommentator.extract_text` (gpt/gptcomment.py lines
105-123).  The HTTP fetch plus BeautifulSoup `<p>`-extraction collaborator
is abstracted as `resp`: `none` models a fetch exception, `some paras` the
list of paragraph texts; the method joins them with single spaces. -/
def extract_text (resp : Option (List String)) : String :=
  match resp with
  | none => ""
  | some paras => " ".intercalate paras

/-- Embeds Python `content[:max_chars]` for a non-negative bound:
the first `n` characters of `s`. -/
def truncate_chars (s : String) (n : Nat) : String :=
  String.mk (s.data.take n)

/-- Embeds `ArticleCommentator.generate_comment` (gpt/gptcomment.py lines
125-170), composed with the constructor's `language.lower()` (line 85).
`resp` is the article-fetch collaborator result (see `extract_text`);
`api` is the chat-completion collaborator: `none` models an API exception
(the `except` branch returns `""`), `some content` a successful response,
which the code strips and truncates to `max_chars`.  `Except.error` models
the `ValueError` raised for an unsupported language. -/
def generate_comment (resp : Option (List String)) (language : String)
    (api : Option String) (max_chars : Nat) : Except String String :=
  let article_text := extract_text resp
  if article_text = "" then Except.ok ""
  else
    let lang := py_lower language
    if lang = "it" ∨ lang = "en" then
      match api with
      | none => Except.ok ""
      | some content => Except.ok (truncate_chars (py_strip content) max_chars)
    else Except.error "ValueError: Language must be en or it"

/-! ## utils/initdb.py — DatabaseManager execution-log store -/

/-- Embeds the Gregorian leap-year rule used by `datetime`. -/
def is_leap (y : Nat) : Bool :=
  y % 4 = 0 && (y % 100 ≠ 0 || y % 400 = 0)

/-- Days in month `m` of year `y`, as validated by `datetime.strptime`. -/
def days_in_month (y m : Nat) : Nat :=
  if m = 2 then (if is_leap y then 29 else 28)
  else if m = 4 ∨ m = 6 ∨ m = 9 ∨ m = 11 then 30
  else 31

/-- Embeds `datetime.datetime.strptime(dt, "%Y-%m-%d %H:%M:%S")`
(utils/initdb.py line 607): exactly four year digits, 1-2 digits for the
other fields, month 1-12, day within the month, hour 0-23, minute and
second 0-59.  Returns the six fields; `none` models `ValueError`. -/
def parse_dt (s : String) : Option (Nat × Nat × Nat × Nat × Nat × Nat) :=
  match py_split_on " " s with
  | [date, time] =>
    match py_split_on "-" date, py_split_on ":" time with
    | [y, mo, d], [h, mi, se] =>
      match py_toNat? y, py_toNat? mo, py_toNat? d, py_toNat? h, py_toNat? mi,
          py_toNat? se with
      | some yv, some mov, some dv, some hv, some miv, some sev =>
        if y.length = 4 ∧ (1 ≤ mo.length ∧ mo.length ≤ 2)
            ∧ (1 ≤ d.length ∧ d.length ≤ 2) ∧ (1 ≤ h.length ∧ h.length ≤ 2)
            ∧ (1 ≤ mi.length ∧ mi.length ≤ 2) ∧ (1 ≤ se.length ∧ se.length ≤ 2)
            ∧ (1 ≤ mov ∧ mov ≤ 12) ∧ (1 ≤ dv ∧ dv ≤ days_in_month yv mov)
            ∧ hv ≤ 23 ∧ miv ≤ 59 ∧ sev ≤ 59 then
          some (yv, mov, dv, hv, miv, sev)
        else none
      | _, _, _, _, _, _ => none
    | _, _ => none
  | _ => none

/-- Encodes a six-field timestamp as a single `Nat` whose order agrees with
the lexicographic (hence chronological) order of the fields. -/
def dt_key (t : Nat × Nat × Nat × Nat × Nat × Nat) : Nat :=
  ((((t.1 * 100 + t.2.1) * 100 + t.2.2.1) * 100 + t.2.2.2.1) * 100
      + t.2.2.2.2.1) * 100 + t.2.2.2.2.2

/-- Embeds the datetime validation of `insert_execution_log_from_json`
(utils/initdb.py lines 601-615): a missing or falsy value, an unparseable
string, or a value outside the MariaDB TIMESTAMP range
[1970-01-01 00:00:01, 2038-01-19 03:14:07] all collapse to `none`
("use default now"); otherwise the original string is kept. -/
def valid_dt (dt : Option String) : Option String :=
  match dt with
  | none => none
  | some s =>
    if s = "" then none
    else
      match parse_dt s with
      | none => none
      | some t =>
        if dt_key t < dt_key (1970, 1, 1, 0, 0, 1)
            ∨ dt_key t > dt_key (2038, 1, 19, 3, 14, 7) then none
        else some s

/-- One JSON record passed to `insert_execution_log_from_json`
(utils/initdb.py lines 578-634).  Field names follow the dict keys the
function reads; `ai_comment_h` stands for the hyphenated key
`"ai-comment"` read at line 627. -/
structure LogInput where
  rss : String := ""
  link : String := ""
  datetime : Option String := none
  description : String := ""
  title : String := ""
  ai_comment_h : Option String := none
  category : Option (List String) := none
  short_link : Option String := none
  img_link : Option String := none
deriving Repr, DecidableEq

/-- One row of the `execution_logs` table (utils/initdb.py lines 171-186).
The DDL puts no UNIQUE constraint on `link`; `datetime := none` stands for
the `CURRENT_TIMESTAMP` column default. -/
structure ExecLogRow where
  feed_id : Nat
  link : String
  datetime : Option String
  description : String
  title : String
  ai_comment : Option String
  category : Option (List String)
  short_link : Option String
  img_link : Option String
deriving Repr, DecidableEq

/-- Embeds `SELECT id FROM feeds WHERE rss = %s` + `fetchone()`
(utils/initdb.py lines 595-596) over a feeds table of (id, rss) rows. -/
def find_feed (feeds : List (Nat × String)) (rss : String) : Option Nat :=
  (feeds.find? (fun f => f.2 = rss)).map (fun f => f.1)

/-- The row built by the INSERT of `insert_execution_log_from_json`
(utils/initdb.py lines 616-631). -/
def mk_log_row (feed_id : Nat) (d : LogInput) : ExecLogRow :=
  { feed_id := feed_id
    link := d.link
    datetime := valid_dt d.datetime
    description := d.description
    title := d.title
    ai_comment := d.ai_comment_h
    category := d.category
    short_link := d.short_link
    img_link := d.img_link }

/-- Embeds `DatabaseManager.insert_execution_log_from_json` for a single
dict (utils/initdb.py lines 594-634): resolve the feed id from `rss`
(unknown feed → skip, counted in the second component); otherwise append a
new row unconditionally — the code runs a plain INSERT with no existence
check on `link`.  Returns (new table, inserted, skipped). -/
def insert_execution_log_one (feeds : List (Nat × String))
    (logs : List ExecLogRow) (d : LogInput) : List ExecLogRow × Nat × Nat :=
  match find_feed feeds d.rss with
  | none => (logs, 0, 1)
  | some fid => (logs ++ [mk_log_row fid d], 1, 0)

/-- Embeds the list branch of `insert_execution_log_from_json`
(utils/initdb.py lines 588-593): fold the single-record insert over the
list, summing inserted/skipped counts. -/
def insert_execution_log_from_json (feeds : List (Nat × String))
    (logs : List ExecLogRow) (ds : List LogInput) :
    List ExecLogRow × Nat × Nat :=
  match ds with
  | [] => (logs, 0, 0)
  | d :: rest =>
    let r := insert_execution_log_one feeds logs d
    let rr := insert_execution_log_from_json feeds r.1 rest
    (rr.1, r.2.1 + rr.2.1, r.2.2 + rr.2.2)

/-! ## rssfeeders/rssfeeders.py — RSSFeeders -/

/-- Worker for `strip_tags`.  The first argument is the scan state:
`none` when no tag is open; `some buf` when a `'<'` has been read and
`buf` holds the (non-`'>'`) characters seen since.  A `'>'` that closes a
non-empty buffer discards the whole span (a regex match); a `'>'`
immediately after `'<'` fails the `[^>]+` part, so `<>` is kept; an
unterminated `'<'` and its buffer are kept verbatim (no `'>'` follows, so
no later match can involve them). -/
def strip_tags_aux : Option (List Char) → List Char → List Char
  | none, [] => []
  | none, c :: rest =>
    if c = '<' then strip_tags_aux (some []) rest
    else c :: strip_tags_aux none rest
  | some buf, [] => '<' :: buf
  | some buf, c :: rest =>
    if c = '>' then
      if buf.isEmpty then '<' :: '>' :: strip_tags_aux none rest
      else strip_tags_aux none rest
    else strip_tags_aux (some (buf ++ [c])) rest

/-- Embeds `re.sub(r'<[^>]+>', '', text)` of `_sanitize_text`
(rssfeeders/rssfeeders.py line 145): every span that starts at `'<'`,
contains at least one non-`'>'` character and ends at the next `'>'` is
removed; any other character is kept. -/
def strip_tags (l : List Char) : List Char :=
  strip_tags_aux none l

/-- Worker for `collapse_ws`; the flag records whether the previous
character belonged to a whitespace run already emitted as `' '`. -/
def collapse_ws_aux (prev_space : Bool) : List Char → List Char
  | [] => []
  | c :: rest =>
    if py_is_space c then
      if prev_space then collapse_ws_aux true rest
      else ' ' :: collapse_ws_aux true rest
    else c :: collapse_ws_aux false rest

/-- Embeds `re.sub(r'\s+', ' ', text, flags=re.UNICODE)`
(rssfeeders/rssfeeders.py line 163): every maximal whitespace run becomes
a single ASCII space. -/
def collapse_ws (l : List Char) : List Char :=
  collapse_ws_aux false l

/-- Embeds `text.find(marker)` + cut (`text[:cut_index]` when found):
keeps everything strictly before the first occurrence of `marker`
(rssfeeders/rssfeeders.py lines 148-160). -/
def cut_at (marker : String) (text : String) : String :=
  match py_split_on marker text with
  | first :: _ :: _ => first
  | _ => text

/-- Embeds `RSSFeeders._sanitize_text` (rssfeeders/rssfeeders.py lines
140-165): strip HTML tags, cut at the `"Contenuto a pagamento"` and
`"<a h"` boilerplate markers and at the first newline, collapse whitespace
runs to single spaces (which also eliminates `\xa0`), map any remaining
`\xa0` to a space, and strip. -/
def sanitize_text (html : String) : String :=
  let text := String.mk (strip_tags html.data)
  let text := cut_at "Contenuto a pagamento" text
  let text := cut_at "<a h" text
  let text := cut_at "\n" text
  let text := String.mk (collapse_ws text.data)
  let text := String.mk (text.data.map (fun c => if c = '\xa0' then ' ' else c))
  py_strip text

/-- Collects every occurrence of `src="` that the `[^>]+` part of the
`_extract_image` regex could end at: scanning stops at the first `'>'`,
and an occurrence needs at least one character before it (`seen` counts
the characters scanned so far).  Each hit contributes the suffix after
its `src="`, in left-to-right order. -/
def src_candidates (seen : Nat) : List Char → List (List Char)
  | [] => []
  | c :: rest =>
    if c = '>' then []
    else
      (match c :: rest with
       | 's' :: 'r' :: 'c' :: '=' :: '"' :: after =>
         if seen = 0 then [] else [after]
       | _ => []) ++ src_candidates (seen + 1) rest

/-- The characters strictly before the first `'"'`; `none` when no `'"'`
follows. -/
def until_quote : List Char → Option (List Char)
  | [] => none
  | c :: rest =>
    if c = '"' then some []
    else (until_quote rest).map (fun u => c :: u)

/-- Takes the `[^"]+` capture group: the non-empty run before the next
`'"'`. -/
def take_url (l : List Char) : Option (List Char) :=
  match until_quote l with
  | some u => if u.isEmpty then none else some u
  | none => none

/-- Embeds `RSSFeeders._extract_image` (rssfeeders/rssfeeders.py lines
133-138): the first match of `<img[^>]+src="([^"]+)"` in the HTML.
`re.search` tries start positions left to right; at an `<img` the greedy
`[^>]+` prefers the LAST `src="` before the tag's `'>'` and backtracks to
earlier ones until the `([^"]+)"` capture succeeds; if none does, the
search resumes at the next character. -/
def extract_image (html : String) : Option String :=
  let rec scan : List Char → Option String
    | [] => none
    | l@('<' :: 'i' :: 'm' :: 'g' :: rest) =>
      (match (src_candidates 0 rest).reverse.findSome? take_url with
       | some url => some (String.mk url)
       | none => scan l.tail)
    | _ :: rest => scan rest
  scan html.data

/-- One parsed feed entry as produced by the `feedparser` collaborator.
`published` / `updated` are the `published_parsed` / `updated_parsed`
instants in seconds; `tags` models `entry.get("tags")` (`none` when the
key is absent or not a list, inner `Option` for each tag's `term`);
`media` is the list of `url` values of `media_content`; `content` the
list of `value` strings of `entry.content`; `entry_id` is
`entry.get("id")`. -/
structure RssEntry where
  link : String := ""
  title : String := ""
  description : String := ""
  published : Option Int := none
  updated : Option Int := none
  tags : Option (List (Option String)) := none
  media : List (Option String) := []
  content : List String := []
  entry_id : Option String := none
deriving Repr, DecidableEq

/-- Result of the `requests.get` + `feedparser.parse` collaborator pair
for one feed URL: `fail` models any exception of the `try` block
(rssfeeders/rssfeeders.py lines 182-188). -/
inductive FetchResult where
  | fail (msg : String)
  | parsed (entries : List RssEntry)
deriving Repr, DecidableEq

/-- One row of `generate_feed_list()` as consumed by `get_latest_rss`:
the feed URL and its AI flag. -/
structure FeedCfg where
  rss : String := ""
  ai : Bool := false
deriving Repr, DecidableEq

/-- The item dict appended by `get_latest_rss`
(rssfeeders/rssfeeders.py lines 258-270) and consumed by the senders.
Field names follow the dict keys: `ai_comment` is the underscored key
`"ai_comment"` written at line 268; `ai_comment_h` is the hyphenated key
`"ai-comment"` read by the senders (senders.py lines 333, 390), which
`get_latest_rss` never writes; the `*_bots` fields are the
`feed.get(platform, {}).get("bots", [])` lists read by the senders,
which `get_latest_rss` also never writes. -/
structure FeedItem where
  rss : String := ""
  link : String := ""
  dt : Int := 0
  title : String := ""
  description : String := ""
  category : Option (List String) := none
  short_link : Option String := none
  img_link : Option String := none
  ai_comment : Option String := none
  ai_comment_h : Option String := none
  telegram_bots : List String := []
  bluesky_bots : List String := []
  linkedin_bots : List String := []
deriving Repr, DecidableEq

/-- Embeds `_entry_date` (rssfeeders/rssfeeders.py lines 193-198): the
first present timestamp among `published_parsed`, `updated_parsed`. -/
def entry_date (e : RssEntry) : Option Int :=
  match e.published with
  | some d => some d
  | none => e.updated

/-- Embeds lines 200-206: keep the dated entries and pick the one with
the greatest timestamp (Python's `max` keeps the earliest-listed entry on
ties); `none` when no entry has a parseable timestamp. -/
def pick_latest (entries : List RssEntry) : Option (RssEntry × Int) :=
  let dated := entries.filterMap (fun e => (entry_date e).map (fun d => (e, d)))
  match dated with
  | [] => none
  | h :: t => some (t.foldl (fun acc x => if x.2 > acc.2 then x else acc) h)

/-- Embeds `(dt - timedelta(days=0)).replace(hour=0, minute=0, second=0,
microsecond=0)` on the seconds timeline: midnight of the day containing
`t`. -/
def start_of_day (t : Int) : Int :=
  t - t % 86400

/-- Embeds the item assembly of `get_latest_rss`
(rssfeeders/rssfeeders.py lines 222-270) for the selected entry of one
feed.  `un` is the `html.unescape` collaborator; `gen_comment` is the
`ArticleCommentator` collaborator (`generate_comment() or ""` keeps a
string either way).  The AI branch mirrors line 245: it runs only when
the feed's `ai` flag, a non-empty `ai_key` and `gpt_model`, and
`not mutetime` all hold. -/
def process_entry (un gen_comment : String → String)
    (ai_key gpt_model : String) (mutetime : Bool)
    (cfg : FeedCfg) (e : RssEntry) (dt : Int) : FeedItem :=
  let desc := sanitize_text (un e.description)
  let title := un e.title
  let cats : Option (List String) :=
    match e.tags with
    | none => none
    | some ts => some (ts.filterMap (fun t =>
        match t with
        | some term => if term = "" then none else some term
        | none => none))
  let img : Option String :=
    match e.media with
    | u :: _ => u
    | [] =>
      match e.content with
      | c :: _ => extract_image c
      | [] => none
  let ai_c : Option String :=
    if cfg.ai && ai_key ≠ "" && gpt_model ≠ "" && !mutetime then
      some (gen_comment e.link)
    else none
  { rss := cfg.rss
    link := e.link
    dt := dt
    title := title
    description := desc
    category := cats
    short_link := e.entry_id
    img_link := img
    ai_comment := ai_c }

/-- Embeds `RSSFeeders.get_latest_rss` (rssfeeders/rssfeeders.py lines
167-271) over the feed list.  `link_exists` is
`db.link_exists_in_execution_logs`; `fetch` the HTTP + feedparser
collaborator; the remaining parameters are the object fields set in
`__init__` (socialbot.py line 258 passes `retention_days=0`).
Faithful to the source, a fetch failure, an entry-less parse, or an
all-undated parse makes the whole call `return None`, discarding items
already accumulated for earlier feeds; the already-processed and
too-old checks instead `continue` with the next feed. -/
def get_latest_rss (link_exists : String → Bool) (fetch : String → FetchResult)
    (un gen_comment : String → String) (ai_key gpt_model : String)
    (mutetime : Bool) (now : Int) (retention_days : Nat) :
    List FeedCfg → Option (List FeedItem)
  | [] => some []
  | cfg :: rest =>
    match fetch cfg.rss with
    | FetchResult.fail _ => none
    | FetchResult.parsed entries =>
      if entries.isEmpty then none
      else
        match pick_latest entries with
        | none => none
        | some (e, dt) =>
          if link_exists e.link then
            get_latest_rss link_exists fetch un gen_comment ai_key gpt_model
              mutetime now retention_days rest
          else if dt < start_of_day (now - (retention_days : Int) * 86400) then
            get_latest_rss link_exists fetch un gen_comment ai_key gpt_model
              mutetime now retention_days rest
          else
            (get_latest_rss link_exists fetch un gen_comment ai_key gpt_model
              mutetime now retention_days rest).map
              (fun tl =>
                process_entry un gen_comment ai_key gpt_model mutetime cfg e dt
                  :: tl)

/-! ## senders/senders.py — SocialSender and helpers -/

/-- One bot credential dict as produced by `export_accounts_cleartext`.
Field defaults mirror the `bot.get(key, "")` / `bot.get("mute", False)`
reads in senders.py. -/
structure Account where
  name : String := ""
  token : String := ""
  chat_id : String := ""
  handle : String := ""
  password : String := ""
  service : String := ""
  urn : String := ""
  access_token : String := ""
  mute : Bool := false
deriving Repr, DecidableEq

/-- The accounts configuration shape of senders.py (line 201): a list of
one-key sections, each mapping a platform name to its bot list. -/
abbrev ConfigList : Type := List (String × List Account)

/-- Embeds `find_bot` (senders.py lines 213-224): scan the sections; in
each section keyed by `service`, return the first bot whose `name`
matches; `none` when no section yields a match. -/
def find_bot (config : ConfigList) (service : String) (name : String) :
    Option Account :=
  config.findSome? (fun sec =>
    if sec.1 = service then sec.2.find? (fun b => b.name = name)
    else none)

/-- Embeds the scheme check of `urlparse`: the text before the first `':'`
when it is a well-formed scheme (letter first, then letters, digits,
`+`, `-`, `.`), lowercased; otherwise `""`. -/
def url_scheme (s : String) : String :=
  match py_split_on ":" s with
  | head :: _ :: _ =>
    if head ≠ "" ∧ head.data.head?.any Char.isAlpha
        ∧ head.data.all (fun c =>
            c.isAlpha ∨ c.isDigit ∨ c = '+' ∨ c = '-' ∨ c = '.') then
      py_lower head
    else ""
  | _ => ""

/-- Embeds `is_valid_url` (senders.py lines 203-211) applied to
`feed.get("short_link")`: `urlparse(None)` raises inside the `try` and
yields `False`; otherwise the scheme must be `http` or `https`. -/
def is_valid_url (url : Option String) : Bool :=
  match url with
  | none => false
  | some s => url_scheme s = "http" || url_scheme s = "https"

/-- Embeds the link-selection snippet shared by all three senders
(e.g. senders.py lines 278-283): an invalid `short_link` falls back to
`link`; a valid one is used via `short_link or link` (a valid URL is a
non-empty, hence truthy, string). -/
def link_to_use (feed : FeedItem) : String :=
  if !is_valid_url feed.short_link then feed.link
  else
    match feed.short_link with
    | some s => if s = "" then feed.link else s
    | none => feed.link

/-- Embeds the Telegram message rendering (senders.py line 284):
`f"{title}\n{description}\n{link_to_use}"`.  The Telegram renderer never
consults any AI-comment key. -/
def telegram_msg (feed : FeedItem) : String :=
  feed.title ++ "\n" ++ feed.description ++ "\n" ++ link_to_use feed

/-- Embeds `ai_comment = feed.get("ai-comment") or None` (senders.py
lines 333 and 390): reads the hyphenated key and maps a falsy value to
`None`. -/
def ai_comment_or_none (feed : FeedItem) : Option String :=
  match feed.ai_comment_h with
  | some s => if s = "" then none else some s
  | none => none

/-- Embeds `text_for_post = ai_comment or feed.get("description", "")`
(senders.py line 391). -/
def text_for_post (feed : FeedItem) : String :=
  match ai_comment_or_none feed with
  | some s => s
  | none => feed.description

/-- Embeds `Category.sanitize` for a list argument with `maxtag=5`
(rssfeeders/sanitizecategory.py lines 77-110): drop items of more than
three whitespace-separated words, remove ASCII spaces, lowercase, drop
items containing an apostrophe or equal to `"articoli"`, deduplicate
keeping first occurrences.  When more than `maxtag` survive the code
samples randomly; that nondeterministic step is determinized here as
taking the first `maxtag`. -/
def sanitize_categories (cats : List String) (maxtag : Nat) : List String :=
  let cleaned := cats.foldl (fun acc item =>
    if (py_words item).length > 3 then acc
    else
      let c := py_lower (String.mk (item.data.filter (fun ch => ch ≠ ' ')))
      if c.data.contains '\'' || c = "articoli" then acc
      else if acc.contains c then acc
      else acc ++ [c]) []
  if cleaned.length > maxtag then cleaned.take maxtag else cleaned

/-- Embeds `Category.hashtag` (rssfeeders/sanitizecategory.py lines
113-134) for a list: prefix each sanitized category with `#`. -/
def hashtags_of (cats : List String) (maxtag : Nat) : List String :=
  (sanitize_categories cats maxtag).map (fun c => "#" ++ c)

/-- Embeds the body text built by `LinkedInPublisher.post_link`
(senders/linkedinpublisher.py lines 115-124): the text, the decorated
link line, and — when `category` is truthy — a blank line followed by the
hashtags, each with a trailing space. -/
def linkedin_post_text (text link : String) (category : Option (List String)) :
    String :=
  let post_text := text ++ "\n\n🔗 Link all'articolo " ++ link
  match category with
  | some (c :: cs) =>
    (hashtags_of (c :: cs) 5).foldl (fun acc tag => acc ++ tag ++ " ")
      (post_text ++ "\n\n")
  | _ => post_text

/-- Outcome of one publish-collaborator call: `err` models an exception
(`requests.raise_for_status`, transport error) escaping the collaborator. -/
inductive PubResult where
  | ok
  | err (msg : String)
deriving Repr, DecidableEq

/-- What a `send_to_*` coroutine did: the publish attempts that were
actually executed (bot name and collaborator outcome) and the exception,
if any, that escaped the coroutine. -/
structure SendOutcome where
  attempts : List (String × PubResult) := []
  error : Option String := none
deriving Repr, DecidableEq

/-- The exception `asyncio.gather(*tasks)` re-raises: with
`return_exceptions` unset, the first failed attempt's exception
propagates (all tasks are already scheduled, so every attempt still
runs). -/
def gather_error (attempts : List (String × PubResult)) : Option String :=
  attempts.findSome? (fun a =>
    match a.2 with
    | PubResult.err m => some m
    | PubResult.ok => none)

/-- The Python `AttributeError` raised when `find_bot` returns `None` and
the sender immediately calls `.get` on it (senders.py lines 260-261,
359-360). -/
def attr_error : String := "AttributeError: NoneType has no attribute get"

/-- Embeds the task-building loop of `send_to_telegram` (senders.py lines
258-288): for each bot name, resolve the account (an unresolved name
raises `AttributeError`, aborting the loop before any task is awaited);
skip the bot when `mute and ismute`; otherwise queue (name, token,
chat_id, message). -/
def build_telegram_tasks (accounts : ConfigList) (feed : FeedItem)
    (ismute : Bool) : List String →
    Except String (List (String × String × String × String))
  | [] => Except.ok []
  | bot_name :: rest =>
    match find_bot accounts "telegram" bot_name with
    | none => Except.error attr_error
    | some acct =>
      if acct.mute && ismute then build_telegram_tasks accounts feed ismute rest
      else
        (build_telegram_tasks accounts feed ismute rest).map
          (fun tl => (bot_name, acct.token, acct.chat_id, telegram_msg feed) :: tl)

/-- Embeds `SocialSender.send_to_telegram` (senders.py lines 246-290).
`publish` is the `TelegramBotPublisher.send_message` collaborator
(token, chat_id, message).  An `AttributeError` in the loop escapes with
no attempt executed: the queued coroutines are never awaited.  Otherwise
all queued attempts run under `asyncio.gather`, which re-raises the first
publish failure. -/
def send_to_telegram (accounts : ConfigList) (feed : FeedItem) (ismute : Bool)
    (publish : String → String → String → PubResult) : SendOutcome :=
  if feed.telegram_bots.isEmpty then { attempts := [], error := none }
  else
    match build_telegram_tasks accounts feed ismute feed.telegram_bots with
    | Except.error e => { attempts := [], error := some e }
    | Except.ok tasks =>
      let attempts := tasks.map (fun t => (t.1, publish t.2.1 t.2.2.1 t.2.2.2))
      { attempts := attempts, error := gather_error attempts }

/-- Embeds the task-building loop of `send_to_linkedin` (senders.py lines
357-404): resolve the account (unresolved → `AttributeError`), honor
`mute and ismute`, and queue (name, access_token, urn, text_for_post,
link_to_use, category).  The random pre-send back-off only affects
timing and is not modelled. -/
def build_linkedin_tasks (accounts : ConfigList) (feed : FeedItem)
    (ismute : Bool) : List String → Except String
      (List (String × String × String × String × String
        × Option (List String)))
  | [] => Except.ok []
  | bot_name :: rest =>
    match find_bot accounts "linkedin" bot_name with
    | none => Except.error attr_error
    | some acct =>
      if acct.mute && ismute then build_linkedin_tasks accounts feed ismute rest
      else
        (build_linkedin_tasks accounts feed ismute rest).map
          (fun tl => (bot_name, acct.access_token, acct.urn, text_for_post feed,
            link_to_use feed, feed.category) :: tl)

/-- Embeds `SocialSender.send_to_linkedin` (senders.py lines 346-406)
together with `LinkedInPublisher.post_link` (linkedinpublisher.py lines
100-151).  `publish` is the LinkedIn UGC-post HTTP collaborator
(access_token, urn, rendered post text, link); `post_link` documents that
it raises `requests.HTTPError` on any non-2xx response
(`resp.raise_for_status()`), and `send_to_linkedin` wraps no handler
around it, so `asyncio.gather` re-raises the first failure. -/
def send_to_linkedin (accounts : ConfigList) (feed : FeedItem) (ismute : Bool)
    (publish : String → String → String → String → PubResult) : SendOutcome :=
  match build_linkedin_tasks accounts feed ismute feed.linkedin_bots with
  | Except.error e => { attempts := [], error := some e }
  | Except.ok tasks =>
    let attempts := tasks.map (fun t =>
      (t.1, publish t.2.1 t.2.2.1
        (linkedin_post_text t.2.2.2.1 t.2.2.2.2.1 t.2.2.2.2.2)
        t.2.2.2.2.1))
    { attempts := attempts, error := gather_error attempts }

/-- The exception that escapes the per-cycle dispatch gather
(socialbot.py lines 263-275): the first error among the per-platform
send outcomes, if any. -/
def cycle_dispatch_error (outs : List SendOutcome) : Option String :=
  outs.findSome? (fun o => o.error)

/-- Embeds steps (e)-(f) of `_worker_loop` (socialbot.py lines 262-279)
as they affect the execution-log store: when the dispatch gather raises,
the loop body aborts before `insert_execution_log_from_json` runs (the
exception reaches the catch-all `except Exception` and the loop dies), so
the store is unchanged; only when no dispatch error occurs are the new
items recorded. -/
def worker_record_step (feeds : List (Nat × String)) (logs : List ExecLogRow)
    (new_items : List LogInput) (dispatch_error : Option String) :
    List ExecLogRow :=
  match dispatch_error with
  | some _ => logs
  | none => (insert_execution_log_from_json feeds logs new_items).1

/-! ## Shared concrete fixtures used by witnesses and evaluations -/

/-- Identity collaborator standing in for `html.unescape` on inputs
without entities, and for an AI generator when unused. -/
def w_id : String → String := fun s => s

/-- A dated, well-formed feed entry used as concrete input. -/
def sample_entry : RssEntry :=
  { link := "http://e/1", title := "t", description := "d",
    published := some 1000000 }

/-- A feed configuration row for `sample_entry`'s feed. -/
def sample_cfg : FeedCfg := { rss := "http://feed" }

/-- A fetch collaborator that returns `sample_entry` for every feed. -/
def w_fetch : String → FetchResult := fun _ => FetchResult.parsed [sample_entry]

/-- A retention store containing only an unrelated link. -/
def w_store : String → Bool := fun s => s = "http://other"

/-- The item `get_latest_rss` assembles from `sample_entry` with AI off. -/
def sample_item : FeedItem :=
  process_entry w_id w_id "" "" false sample_cfg sample_entry 1000000

/-! ## Claim theorems -/

/-- Claim C1, counterexample: the claim asserts that for the window
`from="22:00", to="06:00"` the predicate `is_mute_time` returns `true` at
23:00; on the code it returns `false` there (the method answers "is now
OUTSIDE the mute interval"). -/
theorem C1_counterexample : is_mute_time "22:00" "06:00" 82800 = false := by
  rfl

/-- Claim C1, amended: for the window `from="22:00", to="06:00"` the
predicate `is_mute_time` returns `false` at 23:00 and at 02:00 and `true`
at 12:00; for every window whose bounds are the same string — parseable
or not — it returns `true` at every time of day; and every window where
either bound fails to parse also yields `true` (the `except ValueError`
branch).  The method computes the NEGATION of "is muted", i.e. "now is
outside the mute interval". -/
theorem C1_theorem :
    is_mute_time "22:00" "06:00" 82800 = false ∧
    is_mute_time "22:00" "06:00" 7200 = false ∧
    is_mute_time "22:00" "06:00" 43200 = true ∧
    (∀ (s : String) (nowSec : Nat), is_mute_time s s nowSec = true) ∧
    (∀ (a b : String) (nowSec : Nat),
      parseHHMM a = none ∨ parseHHMM b = none →
      is_mute_time a b nowSec = true) := by
  refine ⟨rfl, rfl, rfl, ?_, ?_⟩
  · intro s nowSec
    cases hs : parseHHMM s <;> simp [is_mute_time, hs]
  · intro a b nowSec h
    rcases h with h | h
    · cases hb : parseHHMM b <;> simp [is_mute_time, h, hb]
    · cases ha : parseHHMM a <;> simp [is_mute_time, ha, h]

/-- Claim C1, witness: the amended statement's universal parts at
concrete inputs — a parseable `from = to` window, an unparseable
`from = to` window, and a window whose first bound fails to parse. -/
theorem C1_witness :
    is_mute_time "00:00" "00:00" 500 = true ∧
    is_mute_time "bogus" "bogus" 0 = true ∧
    is_mute_time "7:" "06:00" 0 = true :=
  ⟨C1_theorem.2.2.2.1 "00:00" 500,
   C1_theorem.2.2.2.1 "bogus" 0,
   C1_theorem.2.2.2.2 "7:" "06:00" 0 (Or.inl rfl)⟩

/-- Claim C9, counterexample: the claim asserts that a zero computed
duration also triggers the clamp-with-warning; on the code a zero
duration is kept as is and no warning is logged — only strictly negative
durations are clamped and warned about. -/
theorem C9_counterexample : clamp_sleep_time 0 = (0, false) := by
  rfl

/-- Claim C9, amended: the wait duration used by the scheduler is never
negative; a strictly negative computed duration is clamped to zero with a
warning, while a zero or positive duration is used unchanged with no
warning. -/
theorem C9_theorem :
    ∀ d : Int,
      0 ≤ (clamp_sleep_time d).1 ∧
      (d < 0 → clamp_sleep_time d = (0, true)) ∧
      (0 ≤ d → clamp_sleep_time d = (d, false)) := by
  intro d
  refine ⟨?_, ?_, ?_⟩
  · by_cases h : d < 0
    · simp [clamp_sleep_time, h]
    · simp [clamp_sleep_time, h]; omega
  · intro h; simp [clamp_sleep_time, h]
  · intro h
    have h' : ¬ d < 0 := by omega
    simp [clamp_sleep_time, h']

/-- Claim C9, witness: the amended statement at the concrete durations
`-5` (clamped, warned) and `7` (kept, silent). -/
theorem C9_witness :
    clamp_sleep_time (-5) = (0, true) ∧ clamp_sleep_time 7 = (7, false) :=
  ⟨(C9_theorem (-5)).2.1 (by norm_num), (C9_theorem 7).2.2 (by norm_num)⟩

/-- `truncate_chars` never yields more than `n` characters. -/
theorem truncate_chars_length (s : String) (n : Nat) :
    (truncate_chars s n).length ≤ n := by
  show (s.data.take n).length ≤ n
  rw [List.length_take]
  exact Nat.min_le_left n s.data.length

/-- Claim C10: the comment returned by `generate_comment` never exceeds
`max_chars` characters (a successful model response is stripped and
truncated to the first `max_chars` characters), a fetch failure (or empty
article) yields the empty string, and an API failure under a supported
language also yields the empty string. -/
theorem C10_theorem :
    ∀ (resp : Option (List String)) (language : String) (api : Option String)
      (n : Nat),
      (∀ s, generate_comment resp language api n = Except.ok s →
        s.length ≤ n) ∧
      (resp = none → generate_comment resp language api n = Except.ok "") ∧
      ((py_lower language = "it" ∨ py_lower language = "en") → api = none →
        generate_comment resp language api n = Except.ok "") := by
  intro resp language api n
  by_cases ha : extract_text resp = ""
  · refine ⟨?_, ?_, ?_⟩
    · intro s hs
      simp [generate_comment, ha] at hs
      simp [← hs]
    · intro _; simp [generate_comment, ha]
    · intro _ _; simp [generate_comment, ha]
  · have hr : resp ≠ none := by
      intro hcon; exact ha (by simp [extract_text, hcon])
    refine ⟨?_, ?_, ?_⟩
    · intro s hs
      by_cases hl : py_lower language = "it" ∨ py_lower language = "en"
      · cases api with
        | none =>
          simp [generate_comment, ha, hl] at hs
          simp [← hs]
        | some content =>
          simp [generate_comment, ha, hl] at hs
          rw [← hs]
          exact truncate_chars_length (py_strip content) n
      · simp [generate_comment, ha, hl] at hs
    · intro hcon; exact absurd hcon hr
    · intro hl hapi
      simp [generate_comment, ha, hl, hapi]

/-- Claim C10, witness: the theorem at concrete inputs — a stripped
six-word response truncated to 5 characters, a fetch failure, and an API
failure. -/
theorem C10_witness :
    "hello".length ≤ 5 ∧
    generate_comment none "en" (some "x") 5 = Except.ok "" ∧
    generate_comment (some ["text"]) "EN" none 5 = Except.ok "" :=
  ⟨(C10_theorem (some ["abc def"]) "en" (some "  hello world  ") 5).1 "hello"
      (by rfl),
   (C10_theorem none "en" (some "x") 5).2.1 rfl,
   (C10_theorem (some ["text"]) "EN" none 5).2.2 (Or.inr rfl) rfl⟩

/-- Feeds table and item used in the C5 retention evaluation. -/
def c5_feeds : List (Nat × String) := [(1, "http://feed")]

/-- A log record whose link will be submitted twice. -/
def c5_item : LogInput := { rss := "http://feed", link := "http://e/1", title := "t" }

/-- Claim C5, counterexample: the claim asserts that recording an
already-present link is a no-op and that no two retention entries ever
share a link; on the code, submitting the same record twice to
`insert_execution_log_from_json` inserts two rows with the same link
(the function runs a plain INSERT and the `execution_logs` DDL has no
UNIQUE constraint on `link`), reporting 2 inserted and 0 skipped. -/
theorem C5_counterexample :
    ((insert_execution_log_from_json c5_feeds [] [c5_item, c5_item]).1.filter
      (fun r => r.link = "http://e/1")).length = 2 ∧
    (insert_execution_log_from_json c5_feeds [] [c5_item, c5_item]).2 = (2, 0) := by
  exact ⟨rfl, rfl⟩

/-- Claim C5, amended: recording is not idempotent.  Every record whose
`rss` resolves to a feed id appends a fresh row — even when the link is
already present, so duplicate links can accumulate — and counts as
inserted; a record is counted as skipped (leaving the table unchanged)
exactly when its `rss` matches no feed. -/
theorem C5_theorem :
    ∀ (feeds : List (Nat × String)) (logs : List ExecLogRow) (d : LogInput),
      (find_feed feeds d.rss = none →
        insert_execution_log_one feeds logs d = (logs, 0, 1)) ∧
      (∀ fid, find_feed feeds d.rss = some fid →
        insert_execution_log_one feeds logs d
          = (logs ++ [mk_log_row fid d], 1, 0)) := by
  intro feeds logs d
  constructor
  · intro h; simp [insert_execution_log_one, h]
  · intro fid h; simp [insert_execution_log_one, h]

/-- Claim C5, witness: the amended statement at a concrete resolvable
record and a concrete unresolvable one. -/
theorem C5_witness :
    insert_execution_log_one c5_feeds [] c5_item
      = ([mk_log_row 1 c5_item], 1, 0) ∧
    insert_execution_log_one [] [] c5_item = ([], 0, 1) :=
  ⟨(C5_theorem c5_feeds [] c5_item).2 1 rfl,
   (C5_theorem [] [] c5_item).1 rfl⟩

/-- The item assembled by `process_entry` carries the selected entry's
link unchanged. -/
theorem process_entry_link (un gc : String → String) (ak gm : String)
    (mt : Bool) (cfg : FeedCfg) (e : RssEntry) (dt : Int) :
    (process_entry un gc ak gm mt cfg e dt).link = e.link := rfl

/-- The item assembled by `process_entry` carries the selected entry's
timestamp unchanged. -/
theorem process_entry_dt (un gc : String → String) (ak gm : String)
    (mt : Bool) (cfg : FeedCfg) (e : RssEntry) (dt : Int) :
    (process_entry un gc ak gm mt cfg e dt).dt = dt := rfl

/-- Midnight normalization is monotone on the seconds timeline. -/
theorem start_of_day_mono {a b : Int} (h : a ≤ b) :
    start_of_day a ≤ start_of_day b := by
  simp only [start_of_day]
  omega

/-- Claim C8: a poll never returns an item whose link the retention store
already contains — for every store predicate, fetch collaborator and feed
list, every item of a successful `get_latest_rss` result has
`link_exists` false on its link. -/
theorem C8_theorem :
    ∀ (link_exists : String → Bool) (fetch : String → FetchResult)
      (un gen_comment : String → String) (ai_key gpt_model : String)
      (mutetime : Bool) (now : Int) (retention_days : Nat)
      (feeds : List FeedCfg) (items : List FeedItem) (x : FeedItem),
      get_latest_rss link_exists fetch un gen_comment ai_key gpt_model mutetime
        now retention_days feeds = some items →
      x ∈ items → link_exists x.link = false := by
  intro le fetch un gc ak gm mt now rd feeds
  induction feeds with
  | nil =>
    intro items x h hx
    simp only [get_latest_rss] at h
    cases h
    simp at hx
  | cons cfg rest ih =>
    intro items x h hx
    simp only [get_latest_rss] at h
    split at h
    · exact Option.noConfusion h
    · split at h
      · exact Option.noConfusion h
      · split at h
        · exact Option.noConfusion h
        · rename_i entries hne hpick e dt heq
          split at h
          · exact ih items x h hx
          · split at h
            · exact ih items x h hx
            · rename_i hle hdt
              rw [Option.map_eq_some'] at h
              obtain ⟨tl, htl, hitems⟩ := h
              subst hitems
              rcases List.mem_cons.mp hx with hx1 | hx2
              · subst hx1
                rw [process_entry_link]
                revert hle
                cases le e.link <;> simp
              · exact ih tl x htl hx2

/-- Claim C8, witness: a concrete poll against a store holding an
unrelated link; the produced item's link is absent from the store. -/
theorem C8_witness : w_store sample_item.link = false :=
  C8_theorem w_store w_fetch w_id w_id "" "" false 1000000 0 [sample_cfg]
    [sample_item] sample_item (by rfl) (by simp)

/-- Claim C7: with the main loop's `retention_days=0` (socialbot.py line
258), an entry timestamped strictly before the start-of-day-normalized
cutoff `now - days_of_news` days is never among the returned items, for
every retention-store state and every `days_of_news ≥ 0`. -/
theorem C7_theorem :
    ∀ (link_exists : String → Bool) (fetch : String → FetchResult)
      (un gen_comment : String → String) (ai_key gpt_model : String)
      (mutetime : Bool) (now : Int) (days_of_news : Nat)
      (feeds : List FeedCfg) (items : List FeedItem) (x : FeedItem),
      get_latest_rss link_exists fetch un gen_comment ai_key gpt_model mutetime
        now 0 feeds = some items →
      x ∈ items →
      ¬ (x.dt < start_of_day (now - (days_of_news : Int) * 86400)) := by
  intro le fetch un gc ak gm mt now d feeds
  induction feeds with
  | nil =>
    intro items x h hx
    simp only [get_latest_rss] at h
    cases h
    simp at hx
  | cons cfg rest ih =>
    intro items x h hx
    simp only [get_latest_rss] at h
    split at h
    · exact Option.noConfusion h
    · split at h
      · exact Option.noConfusion h
      · split at h
        · exact Option.noConfusion h
        · rename_i entries hne hpick e dt heq
          split at h
          · exact ih items x h hx
          · split at h
            · exact ih items x h hx
            · rename_i hle hdt
              rw [Option.map_eq_some'] at h
              obtain ⟨tl, htl, hitems⟩ := h
              subst hitems
              rcases List.mem_cons.mp hx with hx1 | hx2
              · subst hx1
                rw [process_entry_dt]
                have hmono : start_of_day (now - (d : Int) * 86400)
                    ≤ start_of_day (now - ((0 : Nat) : Int) * 86400) :=
                  start_of_day_mono (by omega)
                omega
              · exact ih tl x htl hx2

/-- Claim C7, witness: a concrete poll whose produced item is dated after
the cutoff for `days_of_news = 3`. -/
theorem C7_witness :
    ¬ (sample_item.dt < start_of_day (1000000 - ((3 : Nat) : Int) * 86400)) :=
  C7_theorem w_store w_fetch w_id w_id "" "" false 1000000 3 [sample_cfg]
    [sample_item] sample_item (by rfl) (by simp)

/-- Credentials store for the C3 evaluation: only the bot `real` exists. -/
def c3_accounts : ConfigList :=
  [("telegram", [{ name := "real", token := "tok", chat_id := "42" }])]

/-- Item bound to one unresolvable and one resolvable Telegram bot. -/
def c3_feed : FeedItem :=
  { title := "T", description := "D", link := "http://l",
    telegram_bots := ["ghost", "real"] }

/-- Claim C3, evaluation at the failing input: dispatching to
`["ghost", "real"]` where `ghost` is absent from the credentials store
does not record a skip — `find_bot` returns `None`, the immediate
`.get` call raises `AttributeError`, the coroutine aborts with zero
publish attempts executed (so the resolvable bot `real` is also never
served), contradicting the claim that a missing bot_name is a
skip-with-log that never raises.  With only resolvable bots the same
dispatch succeeds. -/
theorem C3_theorem :
    send_to_telegram c3_accounts c3_feed false (fun _ _ _ => PubResult.ok)
      = { attempts := [], error := some attr_error } ∧
    send_to_telegram c3_accounts
        { c3_feed with telegram_bots := ["real"] } false
        (fun _ _ _ => PubResult.ok)
      = { attempts := [("real", PubResult.ok)], error := none } :=
  ⟨rfl, rfl⟩

/-- Credentials store for the C2 evaluation: two LinkedIn bots. -/
def c2_accounts : ConfigList :=
  [("linkedin", [{ name := "good", urn := "ug", access_token := "ta" },
                 { name := "bad", urn := "ub", access_token := "tb" }])]

/-- Item bound to both LinkedIn bots. -/
def c2_feed : FeedItem :=
  { title := "T", description := "D", link := "http://l",
    linkedin_bots := ["good", "bad"] }

/-- A publish collaborator for which the `bad` account's post raises
`requests.HTTPError` (via `raise_for_status`). -/
def c2_publish : String → String → String → String → PubResult :=
  fun _ urn _ _ => if urn = "ub" then PubResult.err "HTTPError: 500" else PubResult.ok

/-- Claim C2, evaluation at the failing input: with one of two targets
failing, both targets do receive their publish attempt (all tasks are
scheduled before `asyncio.gather` re-raises), but the failure is not
recorded as a per-target outcome — it escapes `send_to_linkedin`
(no try/except around `post_link`, `gather` without
`return_exceptions`), aborts the worker cycle, and the retention
recording step never runs, so the item's link is recorded zero times,
not exactly once. -/
theorem C2_theorem :
    (send_to_linkedin c2_accounts c2_feed false c2_publish).attempts
      = [("good", PubResult.ok), ("bad", PubResult.err "HTTPError: 500")] ∧
    (send_to_linkedin c2_accounts c2_feed false c2_publish).error
      = some "HTTPError: 500" ∧
    worker_record_step [(1, "http://feed")] []
      [{ rss := "http://feed", link := "http://l" }]
      (send_to_linkedin c2_accounts c2_feed false c2_publish).error = [] :=
  ⟨rfl, rfl, rfl⟩

/-- A feed whose fetch collaborator raises. -/
def c4_bad : FeedCfg := { rss := "http://bad" }

/-- Fetch collaborator for the C4 evaluation: `http://bad` raises, every
other feed parses to `sample_entry`. -/
def c4_fetch : String → FetchResult :=
  fun u =>
    if u = "http://bad" then FetchResult.fail "HTTPError"
    else FetchResult.parsed [sample_entry]

/-- Claim C4, evaluation at the failing input: polling the healthy feed
alone yields its item, but polling it together with a failing feed makes
`get_latest_rss` return `None` for the entire cycle — the `except` branch
executes `return None` instead of `continue`, discarding the healthy
feed's already-collected item (and the caller, socialbot.py line 274,
then iterates over `None` and raises `TypeError`), contradicting the
claim that one feed's failure leaves the other feeds' results intact. -/
theorem C4_theorem :
    get_latest_rss w_store c4_fetch w_id w_id "" "" false 1000000 0
      [sample_cfg, c4_bad] = none ∧
    get_latest_rss w_store c4_fetch w_id w_id "" "" false 1000000 0
      [sample_cfg] = some [sample_item] :=
  ⟨rfl, rfl⟩

/-- The entry for the C6 evaluation. -/
def c6_entry : RssEntry :=
  { link := "http://l", title := "t", description := "d",
    published := some 1000000 }

/-- An AI-enabled feed configuration. -/
def c6_cfg : FeedCfg := { rss := "http://feed", ai := true }

/-- An AI collaborator returning the marker comment `XYZQ`. -/
def c6_gen : String → String := fun _ => "XYZQ"

/-- The item the poller assembles for `c6_entry` with AI enabled. -/
def c6_item : FeedItem :=
  process_entry w_id c6_gen "key" "model" false c6_cfg c6_entry 1000000

/-- Claim C6, evaluation at the failing input: the poller stores the AI
comment `XYZQ` under the key `ai_comment` and never writes the hyphenated
key `ai-comment`; the Telegram renderer produces
`title\ndescription\nlink` without ever consulting an AI comment, and the
LinkedIn text (which reads only the hyphenated key) falls back to the
description — so no rendered message uses the present, non-empty
`ai_comment`, contradicting the claim; the link is included either
way. -/
theorem C6_theorem :
    c6_item.ai_comment = some "XYZQ" ∧
    c6_item.ai_comment_h = none ∧
    telegram_msg c6_item = "t\nd\nhttp://l" ∧
    text_for_post c6_item = "d" ∧
    linkedin_post_text (text_for_post c6_item) (link_to_use c6_item)
        c6_item.category
      = "d\n\n🔗 Link all'articolo http://l" :=
  ⟨rfl, rfl, rfl, rfl, rfl⟩
